import Mathlib

/-!
Verification of the real-estate backend (`src/main.py`, `src/schemas.py`):
a shallow embedding of the schema validation, the document-store adapter,
the filter construction of property search, and the route handlers, with
theorems settling the specification's claims.

Numbers that are Python `float` are modelled as `ℚ`; the store's internal
`_id` (a MongoDB ObjectId) is modelled as a `Nat` tagged with its own
constructor in the JSON-like `Value` type.
-/

set_option autoImplicit false

namespace RealEstate

/-- A JSON-like document value, as stored in and returned from the document
store. `oid` is the store's internal object identifier. -/
inductive Value where
  | str : String → Value
  | num : ℚ → Value
  | list : List Value → Value
  | null : Value
  | oid : Nat → Value

/-- Python `str(...)` on the values that reach it in `main.py` (the popped
`_id`, which is an ObjectId, or the default `""`). Total for convenience. -/
def Value.pyStr : Value → String
  | .str s => s
  | .num q => toString q
  | .list _ => "list"
  | .null => "None"
  | .oid n => toString n

/-- `schemas.Property` (src/schemas.py lines 9-23): the validated record. -/
structure Property where
  title : String
  description : Option String
  price : ℚ
  city : String
  address : String
  bedrooms : Int
  bathrooms : ℚ
  area_sqft : Int
  images : List String
  tags : List String
  coords_lat : Option ℚ
  coords_lng : Option ℚ
  tour_3d_url : Option String
  broker_id : Option String
deriving DecidableEq, Repr

/-- The pydantic field constraints of `Property` (src/schemas.py):
`price`, `bedrooms`, `bathrooms`, `area_sqft` each carry `ge=0`; all other
fields are unconstrained beyond their type. -/
def Property.valid (p : Property) : Bool :=
  decide (0 ≤ p.price) && decide (0 ≤ p.bedrooms) &&
  decide (0 ≤ p.bathrooms) && decide (0 ≤ p.area_sqft)

/-- `schemas.Broker` input (src/schemas.py lines 25-33). Fields with a
pydantic default are `Option`s at the input boundary: `none` means the
client did not supply the field, and the default is applied on parse. -/
structure BrokerIn where
  name : String
  title : Option (Option String)
  avatar_url : Option String
  rating : Option ℚ
  reviews_count : Option Int
  phone : Option String
  email : Option String
  badges : Option (List String)
deriving DecidableEq, Repr

/-- The stored (validated, defaults applied) broker record. -/
structure Broker where
  name : String
  title : Option String
  avatar_url : Option String
  rating : ℚ
  reviews_count : Int
  phone : Option String
  email : Option String
  badges : List String
deriving DecidableEq, Repr

/-- The pieces of a character list split at every occurrence of the
separator `c` (so a list with no separator yields one piece). -/
def splitChar (c : Char) : List Char → List (List Char)
  | [] => [[]]
  | x :: xs =>
    match splitChar c xs with
    | [] => [[x]]
    | h :: t => if x = c then [] :: h :: t else (x :: h) :: t

/-- Modelled from the spec: pydantic `EmailStr` syntactic validation
(third-party code, not in src/). §4.1: "Email fields must match standard
email syntax; malformed emails are rejected." Modelled as: exactly one
`@`, a non-empty local part, and a domain that contains a `.` with
non-empty labels around it. -/
def emailValid (s : String) : Bool :=
  match splitChar '@' s.data with
  | [lp, dom] =>
      !lp.isEmpty && !dom.isEmpty &&
      (splitChar '.' dom).length ≥ 2 &&
      (splitChar '.' dom).all (fun t => !t.isEmpty)
  | _ => false

/-- Default rating `4.8` of `Broker.rating` (src/schemas.py line 29). -/
def defaultRating : ℚ := 24 / 5

/-- The pydantic field constraints of `Broker`: `rating` carries
`ge=0, le=5` (checked on the supplied value, or the default `4.8` when
absent), `reviews_count` carries `ge=0`, and `email`, when supplied, must
be a syntactically valid email. -/
def BrokerIn.valid (b : BrokerIn) : Bool :=
  decide (0 ≤ b.rating.getD defaultRating) &&
  decide (b.rating.getD defaultRating ≤ 5) &&
  decide (0 ≤ b.reviews_count.getD 0) &&
  (match b.email with
   | none => true
   | some e => emailValid e)

/-- Parsing a valid `BrokerIn` applies the pydantic defaults
(src/schemas.py lines 25-33). -/
def BrokerIn.parse (b : BrokerIn) : Broker where
  name := b.name
  title := b.title.getD (some "Senior Broker")
  avatar_url := b.avatar_url
  rating := b.rating.getD defaultRating
  reviews_count := b.reviews_count.getD 0
  phone := b.phone
  email := b.email
  badges := b.badges.getD ["Verified", "Top Rated"]

/-- `schemas.Booking` (src/schemas.py lines 35-42). -/
structure Booking where
  property_id : String
  name : String
  email : String
  phone : Option String
  preferred_date : String
  preferred_time : String
  notes : Option String
deriving DecidableEq, Repr

/-- The pydantic field constraints of `Booking`: only `email : EmailStr`
constrains a value beyond its type. -/
def Booking.valid (b : Booking) : Bool := emailValid b.email

/-! ## Property search: filter construction (src/main.py lines 60-86) -/

/-- `PropertyQuery` (src/main.py lines 60-65): all fields optional,
defaulting to `None`. -/
structure PropertyQuery where
  q : Option String
  city : Option String
  min_price : Option ℚ
  max_price : Option ℚ
  bedrooms : Option Int
deriving DecidableEq, Repr

/-- The query with every field `None`. -/
def PropertyQuery.empty : PropertyQuery := ⟨none, none, none, none, none⟩

/-- The store filter built by `search_properties` (src/main.py lines
69-86), mirrored field-for-key: `city` holds the pattern of
`filt["city"]`, `qOr` the pattern shared by the three `$or` branches,
`priceGte`/`priceLte` the `$gte`/`$lte` entries of `filt["price"]`
(the `"price"` key is present exactly when one of them is), and
`bedroomsGte` the `$gte` bound of `filt["bedrooms"]`. `none` means the
key is absent from the dict. -/
structure Filter where
  city : Option String
  qOr : Option String
  priceGte : Option ℚ
  priceLte : Option ℚ
  bedroomsGte : Option Int
deriving DecidableEq, Repr

/-- `search_properties` filter construction (src/main.py lines 69-86).
Python truthiness: `if query.city:` and `if query.q:` skip the condition
both for `None` and for `""`; the numeric fields are tested with
`is not None`. -/
def buildFilter (query : PropertyQuery) : Filter where
  city := match query.city with
    | some c => if c = "" then none else some c
    | none => none
  qOr := match query.q with
    | some s => if s = "" then none else some s
    | none => none
  priceGte := query.min_price
  priceLte := query.max_price
  bedroomsGte := query.bedrooms

/-- `pat.isSub hay`: `pat` occurs as a contiguous substring of `hay`
(on character lists). -/
def listIsSub (pat : List Char) : List Char → Bool
  | [] => pat.isEmpty
  | c :: t => pat.isPrefixOf (c :: t) || listIsSub pat t

/-- Modelled from the spec: the document store's evaluation of a
`{"$regex": pat, "$options": "i"}` condition (MongoDB, not in src/),
per §4.3: "case-insensitive substring match". -/
def ciMatch (pat field : String) : Bool :=
  listIsSub (pat.data.map Char.toLower) (field.data.map Char.toLower)

/-- Modelled from the spec: the store's evaluation of the built filter
against a property document (MongoDB query semantics, not in src/), per
§4.3: each present condition must hold, all combined with logical AND;
the `$or` block holds when the pattern matches the title, the
description (absent description matches nothing), or some element of
`tags` (`$elemMatch`); `$gte`/`$lte` are inclusive bounds. -/
def filterMatches (f : Filter) (p : Property) : Bool :=
  (match f.city with
   | none => true
   | some pat => ciMatch pat p.city) &&
  (match f.qOr with
   | none => true
   | some pat =>
       ciMatch pat p.title ||
       (match p.description with
        | some d => ciMatch pat d
        | none => false) ||
       p.tags.any (fun t => ciMatch pat t)) &&
  (match f.priceGte with
   | none => true
   | some m => decide (m ≤ p.price)) &&
  (match f.priceLte with
   | none => true
   | some mx => decide (p.price ≤ mx)) &&
  (match f.bedroomsGte with
   | none => true
   | some b => decide (b ≤ p.bedrooms))

/-! ## Document store (modelled from §4.2; `database.py` is not in src/) -/

/-- Modelled from the spec: the document store's state (`database.py` is
not in src/). One list per collection used by `main.py`, in insertion
order, each record tagged with its store-assigned internal identifier;
`nextOid` is the next fresh identifier. §4.2: `createDocument` "inserts
it, returns the newly assigned identifier as a string"; `getDocuments`
"returns up to `limit` matching documents (default unlimited unless
specified), no defined ordering is guaranteed beyond the store's natural
return order" — the natural return order of inserts is modelled as
insertion order. -/
structure Store where
  property : List (Nat × Property)
  broker : List (Nat × Broker)
  booking : List (Nat × Booking)
  nextOid : Nat

/-- The empty store. -/
def Store.empty : Store := ⟨[], [], [], 0⟩

/-- `l.take k` for an optional limit; `none` means unlimited (§4.2). -/
def takeOpt {α : Type} (limit : Option Nat) (l : List α) : List α :=
  match limit with
  | none => l
  | some k => l.take k

/-- Modelled from the spec: `get_documents` on the `property` collection
(§4.2): the documents matching the filter, in natural (insertion) order,
truncated to `limit` when one is given. -/
def getPropertyDocuments (s : Store) (f : Filter) (limit : Option Nat) :
    List (Nat × Property) :=
  takeOpt limit (s.property.filter (fun d => filterMatches f d.2))

/-- Serialization of a validated `Property` to a store document
(§4.2: "serializes the validated record to a store document"), with the
store-assigned `_id`. -/
def propertyToDoc (n : Nat) (p : Property) : List (String × Value) :=
  [("_id", .oid n),
   ("title", .str p.title),
   ("description", match p.description with | some d => .str d | none => .null),
   ("price", .num p.price),
   ("city", .str p.city),
   ("address", .str p.address),
   ("bedrooms", .num p.bedrooms),
   ("bathrooms", .num p.bathrooms),
   ("area_sqft", .num p.area_sqft),
   ("images", .list (p.images.map .str)),
   ("tags", .list (p.tags.map .str)),
   ("coords_lat", match p.coords_lat with | some q => .num q | none => .null),
   ("coords_lng", match p.coords_lng with | some q => .num q | none => .null),
   ("tour_3d_url", match p.tour_3d_url with | some u => .str u | none => .null),
   ("broker_id", match p.broker_id with | some b => .str b | none => .null)]

/-- Serialization of a stored `Broker` to a store document. -/
def brokerToDoc (n : Nat) (b : Broker) : List (String × Value) :=
  [("_id", .oid n),
   ("name", .str b.name),
   ("title", match b.title with | some t => .str t | none => .null),
   ("avatar_url", match b.avatar_url with | some u => .str u | none => .null),
   ("rating", .num b.rating),
   ("reviews_count", .num b.reviews_count),
   ("phone", match b.phone with | some t => .str t | none => .null),
   ("email", match b.email with | some t => .str t | none => .null),
   ("badges", .list (b.badges.map .str))]

/-- The identifier-normalization applied to every listed document
(src/main.py lines 89-90, 136-137, 156-157):
`d["id"] = str(d.pop("_id", ""))` — the `_id` entry is removed and its
value, as a string, is set under the key `id` (a Python dict assignment
of a fresh key appends it). -/
def normalizeDoc (d : List (String × Value)) : List (String × Value) :=
  let v := (d.lookup "_id").getD (.str "")
  (d.filter (fun kv => kv.1 ≠ "_id")) ++ [("id", .str v.pyStr)]

/-! ## Route handlers (src/main.py) -/

/-- The body of a rejected request: FastAPI reports a pydantic validation
failure as a 422 client error before the handler runs. -/
inductive Response (α : Type) where
  | ok : α → Response α
  | validationError : Response α
deriving DecidableEq, Repr

/-- `Response.ok?`: did the request succeed? -/
def Response.ok? {α : Type} : Response α → Bool
  | .ok _ => true
  | .validationError => false

/-- `POST /api/properties` (src/main.py lines 52-58): pydantic validates
the payload (422 on failure, nothing stored), then `create_document`
inserts it and the handler returns `{"id": inserted_id}`. -/
def create_property (s : Store) (payload : Property) : Store × Response String :=
  if payload.valid then
    ({ s with property := s.property ++ [(s.nextOid, payload)],
              nextOid := s.nextOid + 1 },
     .ok (toString s.nextOid))
  else
    (s, .validationError)

/-- `POST /api/properties/search` (src/main.py lines 67-93): build the
filter, fetch with `limit=50`, normalize each document's identifier, and
return the items. -/
def search_properties (s : Store) (query : PropertyQuery) :
    List (List (String × Value)) :=
  (getPropertyDocuments s (buildFilter query) (some 50)).map
    (fun d => normalizeDoc (propertyToDoc d.1 d.2))

/-- The first predefined sample property (src/main.py lines 102-116). -/
def sample1 : Property where
  title := "Skyline Penthouse"
  description := some "Panoramic city views, floor-to-ceiling glass."
  price := 1850000
  city := "New York"
  address := "350 5th Ave"
  bedrooms := 3
  bathrooms := 3
  area_sqft := 2200
  images := []
  tags := ["luxury", "cityscape"]
  coords_lat := some (407484 / 10000)
  coords_lng := some (-739857 / 10000)
  tour_3d_url := some "https://my.matterport.com/show/?m=example"
  broker_id := none

/-- The second predefined sample property (src/main.py lines 117-131). -/
def sample2 : Property where
  title := "Marina Bay Residence"
  description := some "Waterfront living with private balcony."
  price := 980000
  city := "San Francisco"
  address := "1 Embarcadero"
  bedrooms := 2
  bathrooms := 2
  area_sqft := 1450
  images := []
  tags := ["waterfront", "premium"]
  coords_lat := some (377955 / 10000)
  coords_lng := some (-1223937 / 10000)
  tour_3d_url := none
  broker_id := none

/-- The filter of an empty query dict `{}`: no conditions. -/
def Filter.empty : Filter := ⟨none, none, none, none, none⟩

/-- `GET /api/properties/sample` (src/main.py lines 95-140): fetch with
`limit=1`; if nothing came back, insert the two predefined samples; then
return ALL property documents (the final `get_documents("property")`
passes no limit), normalized. -/
def seed_sample_properties (s : Store) :
    Store × List (List (String × Value)) :=
  let existing := getPropertyDocuments s Filter.empty (some 1)
  let s' :=
    if existing.isEmpty then
      { s with property := s.property ++ [(s.nextOid, sample1), (s.nextOid + 1, sample2)],
               nextOid := s.nextOid + 2 }
    else s
  (s', (getPropertyDocuments s' Filter.empty none).map
    (fun d => normalizeDoc (propertyToDoc d.1 d.2)))

/-- `POST /api/brokers` (src/main.py lines 144-150): pydantic validates
the payload (422 on failure, nothing stored), inserts the parsed record,
returns `{"id": inserted_id}`. -/
def create_broker (s : Store) (payload : BrokerIn) : Store × Response String :=
  if payload.valid then
    ({ s with broker := s.broker ++ [(s.nextOid, payload.parse)],
              nextOid := s.nextOid + 1 },
     .ok (toString s.nextOid))
  else
    (s, .validationError)

/-- `GET /api/brokers` (src/main.py lines 152-160): fetch with the empty
filter and `limit=50`, normalize, return. -/
def list_brokers (s : Store) : List (List (String × Value)) :=
  (takeOpt (some 50) s.broker).map (fun d => normalizeDoc (brokerToDoc d.1 d.2))

/-- `POST /api/bookings` (src/main.py lines 164-170): pydantic validates
the payload (422 on failure, nothing stored), inserts it, and returns
`{"id": inserted_id, "status": "confirmed"}` — the status is the literal
string, with no availability or conflict check. -/
def create_booking (s : Store) (payload : Booking) :
    Store × Response (String × String) :=
  if payload.valid then
    ({ s with booking := s.booking ++ [(s.nextOid, payload)],
              nextOid := s.nextOid + 1 },
     .ok (toString s.nextOid, "confirmed"))
  else
    (s, .validationError)

/-! ## Concrete instances used by counterexamples and witnesses -/

/-- A document is normalized: no internal `_id` key, and an `id` key
holding a string. -/
def idNormalized (d : List (String × Value)) : Bool :=
  (d.lookup "_id").isNone &&
  (match d.lookup "id" with
   | some (.str _) => true
   | _ => false)

/-- A store whose property collection already holds 51 documents. -/
def store51 : Store := ⟨(List.range 51).map (fun i => (i, sample2)), [], [], 51⟩

/-- A store whose property collection already holds 50 documents. -/
def store50 : Store := ⟨(List.range 50).map (fun i => (i, sample2)), [], [], 50⟩

/-- A valid property input whose title occurs in no other document of the
stores above. -/
def cozyLoft : Property where
  title := "Cozy Loft"
  description := none
  price := 250000
  city := "Austin"
  address := "12 Oak St"
  bedrooms := 1
  bathrooms := 1
  area_sqft := 600
  images := []
  tags := ["garden"]
  coords_lat := none
  coords_lng := none
  tour_3d_url := none
  broker_id := none

/-- A broker input with an out-of-range rating. -/
def brokerRatingLow : BrokerIn :=
  ⟨"Ann Lee", none, none, some (-1), none, none, none, none⟩

/-- A broker input that supplies no rating. -/
def brokerNoRating : BrokerIn :=
  ⟨"Bo Chen", none, none, none, none, none, none, none⟩

/-- A booking with a syntactically valid email. -/
def bookingGood : Booking :=
  ⟨"prop1", "Cara", "cara@example.com", none, "2025-01-01", "14:30", none⟩

/-- A booking with a malformed email. -/
def bookingBad : Booking :=
  ⟨"prop1", "Dan", "not-an-email", none, "2025-01-01", "14:30", none⟩

/-! ## Helper lemmas -/

/-- The empty pattern is a substring of every character list. -/
theorem listIsSub_nil (l : List Char) : listIsSub [] l = true := by
  cases l <;> simp [listIsSub, List.isPrefixOf]

/-- An empty pattern matches every field. -/
theorem ciMatch_empty_pat (f : String) : ciMatch "" f = true :=
  listIsSub_nil _

/-- The empty filter matches every property. -/
theorem filterMatches_empty (p : Property) :
    filterMatches Filter.empty p = true := rfl

/-- Filtering the property collection by the empty filter keeps it whole. -/
theorem getPropertyDocuments_empty (s : Store) (limit : Option Nat) :
    getPropertyDocuments s Filter.empty limit = takeOpt limit s.property := by
  simp [getPropertyDocuments, filterMatches_empty]

/-- `Nat.toDigitsCore` never empties a non-empty accumulator. -/
theorem toDigitsCore_ne_nil (b : Nat) (fuel : Nat) :
    ∀ (n : Nat) (ds : List Char), ds ≠ [] → Nat.toDigitsCore b fuel n ds ≠ [] := by
  induction fuel with
  | zero => intro n ds h; simpa [Nat.toDigitsCore] using h
  | succ f ih =>
    intro n ds _
    simp only [Nat.toDigitsCore]
    split
    · simp
    · exact ih _ _ (by simp)

/-- The decimal digit list of a natural number is non-empty. -/
theorem toDigits_ne_nil (n : Nat) : Nat.toDigits 10 n ≠ [] := by
  simp only [Nat.toDigits, Nat.toDigitsCore]
  split
  · simp
  · exact toDigitsCore_ne_nil _ _ _ _ (by simp)

/-- The decimal rendering of a natural number is a non-empty string. -/
theorem nat_toString_ne_empty (n : Nat) : toString n ≠ "" := by
  show Nat.repr n ≠ ""
  unfold Nat.repr
  intro h
  have hd := congrArg String.data h
  simp only [List.asString] at hd
  exact toDigits_ne_nil n hd

/-! ## Claims -/

/-- C1: For every search query, the filter built by `search_properties`
matches a property exactly as the conjunction of the conditions whose
input fields are present: a case-insensitive substring match on the city
field when `city` is given, AND, when the free-text term `q` is given, a
disjunction matching `q` case-insensitively as a substring of the title,
or of the description, or of some element of the tags list, AND the
remaining (price/bedroom) conditions of the same query. -/
theorem search_filter_conjoins_city_and_q_conditions
    (query : PropertyQuery) (p : Property) :
    filterMatches (buildFilter query) p =
      ((match query.city with
        | some c => ciMatch c p.city
        | none => true) &&
       (match query.q with
        | some pat =>
            ciMatch pat p.title ||
            (match p.description with
             | some d => ciMatch pat d
             | none => false) ||
            p.tags.any (fun t => ciMatch pat t)
        | none => true) &&
       filterMatches (buildFilter { query with city := none, q := none }) p) := by
  obtain ⟨qq, qc, qmn, qmx, qb⟩ := query
  cases qc with
  | none =>
    cases qq with
    | none => simp [buildFilter, filterMatches, Bool.and_assoc]
    | some pat =>
      by_cases hp : pat = "" <;>
        simp [buildFilter, filterMatches, hp, ciMatch_empty_pat, Bool.and_assoc]
  | some c =>
    by_cases hc : c = "" <;> cases qq with
    | none =>
      simp [buildFilter, filterMatches, hc, ciMatch_empty_pat, Bool.and_assoc]
    | some pat =>
      by_cases hp : pat = "" <;>
        simp [buildFilter, filterMatches, hc, hp, ciMatch_empty_pat, Bool.and_assoc]

/-- C2: For every search query, a present `min_price` adds an inclusive
lower bound on price, a present `max_price` adds an inclusive upper
bound, in any combination, and a present `bedrooms` value filters for
bedrooms greater than or equal to it (never exact equality): the built
filter matches exactly as the same query without those fields, conjoined
with those bounds. -/
theorem search_filter_price_and_bedroom_bounds
    (query : PropertyQuery) (p : Property) :
    filterMatches (buildFilter query) p =
      (filterMatches
        (buildFilter
          { query with min_price := none, max_price := none, bedrooms := none }) p &&
       (match query.min_price with
        | some m => decide (m ≤ p.price)
        | none => true) &&
       (match query.max_price with
        | some mx => decide (p.price ≤ mx)
        | none => true) &&
       (match query.bedrooms with
        | some b => decide (b ≤ p.bedrooms)
        | none => true)) := by
  obtain ⟨qq, qc, qmn, qmx, qb⟩ := query
  simp only [buildFilter, filterMatches, Bool.and_assoc, Bool.and_true, Bool.true_and]
  cases qmn <;> cases qmx <;> cases qb <;>
    simp [Bool.and_assoc, Bool.and_comm, Bool.and_left_comm]

/-- C10: A query whose `city` or free-text term `q` is the empty string
builds exactly the same filter as one omitting that field, whereas the
zero values `min_price = 0`, `max_price = 0` and `bedrooms = 0` are not
ignored: each still puts its bound into the filter. -/
theorem empty_strings_ignored_zero_bounds_kept (query : PropertyQuery) :
    buildFilter { query with city := some "" } =
      buildFilter { query with city := none } ∧
    buildFilter { query with q := some "" } =
      buildFilter { query with q := none } ∧
    (buildFilter { query with min_price := some 0 }).priceGte = some 0 ∧
    (buildFilter { query with max_price := some 0 }).priceLte = some 0 ∧
    (buildFilter { query with bedrooms := some 0 }).bedroomsGte = some 0 := by
  obtain ⟨qq, qc, qmn, qmx, qb⟩ := query
  refine ⟨?_, ?_, rfl, rfl, rfl⟩ <;> simp [buildFilter]

/-- C3 (counterexample): on a store already holding 51 property
documents, the sample-listing endpoint returns 51 items — its final
`get_documents("property")` passes no limit, so it is not capped at
50. -/
theorem sample_listing_returns_more_than_50 :
    50 < (seed_sample_properties store51).2.length := by
  have h : (seed_sample_properties store51).2.length = 51 := by
    simp [seed_sample_properties, getPropertyDocuments_empty, takeOpt, store51]
  omega

/-- C3 (amended): the property-search and broker-listing endpoints
return at most 50 items regardless of store size; the sample-property
listing endpoint is not capped. -/
theorem search_and_broker_listings_capped_at_50
    (s : Store) (query : PropertyQuery) :
    (search_properties s query).length ≤ 50 ∧ (list_brokers s).length ≤ 50 := by
  constructor <;>
    simp [search_properties, list_brokers, getPropertyDocuments, takeOpt]

/-- C4: Every document returned by a listing endpoint (property search,
sample listing, broker listing) has the store's internal `_id` field
removed and an `id` key holding a string; on the serialized documents the
`id` value is exactly the internal identifier rendered as a string. -/
theorem listed_documents_expose_id_not_internal_id
    (s : Store) (query : PropertyQuery) (n : Nat) (p : Property) (b : Broker) :
    ((search_properties s query).all idNormalized = true ∧
     (seed_sample_properties s).2.all idNormalized = true ∧
     (list_brokers s).all idNormalized = true) ∧
    (normalizeDoc (propertyToDoc n p)).lookup "_id" = none ∧
    (normalizeDoc (propertyToDoc n p)).lookup "id" =
      some (.str (toString n)) ∧
    (normalizeDoc (brokerToDoc n b)).lookup "_id" = none ∧
    (normalizeDoc (brokerToDoc n b)).lookup "id" =
      some (.str (toString n)) := by
  have hp : ∀ d : Nat × Property,
      idNormalized (normalizeDoc (propertyToDoc d.1 d.2)) = true := fun d => rfl
  have hb : ∀ d : Nat × Broker,
      idNormalized (normalizeDoc (brokerToDoc d.1 d.2)) = true := fun d => rfl
  refine ⟨⟨?_, ?_, ?_⟩, rfl, rfl, rfl, rfl⟩
  · simp only [search_properties, List.all_eq_true]
    intro d hd
    obtain ⟨a, -, rfl⟩ := List.mem_map.mp hd
    exact hp a
  · simp only [seed_sample_properties, List.all_eq_true]
    intro d hd
    obtain ⟨a, -, rfl⟩ := List.mem_map.mp hd
    exact hp a
  · simp only [list_brokers, List.all_eq_true]
    intro d hd
    obtain ⟨a, -, rfl⟩ := List.mem_map.mp hd
    exact hb a

/-- C5 (counterexample): on a store already holding 50 property
documents, creating a valid property and then searching with the
all-empty query misses it — the search cap of 50 cuts the result before
the newly appended document. No returned document carries its title. -/
theorem create_then_search_misses_property_on_full_store :
    cozyLoft.valid = true ∧
    (search_properties (create_property store50 cozyLoft).1
        PropertyQuery.empty).all
      (fun d => match d.lookup "title" with
        | some (.str t) => !(t == "Cozy Loft")
        | _ => true) = true := by
  constructor
  · decide
  · decide

/-- C5 (amended): for every valid property input, when the property
collection holds fewer than 50 documents before creation, creating it
and then searching with the all-empty query yields a result set
containing that property with all its fields unchanged and a non-empty
string `id`. -/
theorem create_then_search_contains_new_property
    (s : Store) (p : Property) (hv : p.valid = true)
    (hlen : s.property.length < 50) :
    ∃ d ∈ search_properties (create_property s p).1 PropertyQuery.empty,
      d.lookup "id" = some (.str (toString s.nextOid)) ∧
      toString s.nextOid ≠ "" ∧
      d.lookup "title" = some (.str p.title) ∧
      d.lookup "description" =
        some (match p.description with | some t => .str t | none => .null) ∧
      d.lookup "price" = some (.num p.price) ∧
      d.lookup "city" = some (.str p.city) ∧
      d.lookup "address" = some (.str p.address) ∧
      d.lookup "bedrooms" = some (.num p.bedrooms) ∧
      d.lookup "bathrooms" = some (.num p.bathrooms) ∧
      d.lookup "area_sqft" = some (.num p.area_sqft) ∧
      d.lookup "images" = some (.list (p.images.map .str)) ∧
      d.lookup "tags" = some (.list (p.tags.map .str)) ∧
      d.lookup "coords_lat" =
        some (match p.coords_lat with | some v => .num v | none => .null) ∧
      d.lookup "coords_lng" =
        some (match p.coords_lng with | some v => .num v | none => .null) ∧
      d.lookup "tour_3d_url" =
        some (match p.tour_3d_url with | some v => .str v | none => .null) ∧
      d.lookup "broker_id" =
        some (match p.broker_id with | some v => .str v | none => .null) := by
  have hstore : (create_property s p).1.property =
      s.property ++ [(s.nextOid, p)] := by
    simp [create_property, hv]
  have hmem : normalizeDoc (propertyToDoc s.nextOid p) ∈
      search_properties (create_property s p).1 PropertyQuery.empty := by
    unfold search_properties
    rw [show buildFilter PropertyQuery.empty = Filter.empty from rfl,
        getPropertyDocuments_empty, hstore]
    simp only [takeOpt]
    have hle : (s.property ++ [(s.nextOid, p)]).length ≤ 50 := by
      simp
      omega
    rw [List.take_of_length_le hle]
    exact List.mem_map_of_mem _
      (List.mem_append_right _ (List.mem_singleton_self _))
  exact ⟨normalizeDoc (propertyToDoc s.nextOid p), hmem, rfl,
    nat_toString_ne_empty s.nextOid, rfl, rfl, rfl, rfl, rfl, rfl, rfl, rfl,
    rfl, rfl, rfl, rfl, rfl, rfl⟩

/-- C5 (witness): the amended theorem at the empty store and the first
sample property. -/
theorem create_then_search_contains_new_property_witness :
    ∃ d ∈ search_properties (create_property Store.empty sample1).1
        PropertyQuery.empty,
      d.lookup "id" = some (.str (toString Store.empty.nextOid)) ∧
      toString Store.empty.nextOid ≠ "" ∧
      d.lookup "title" = some (.str sample1.title) ∧
      d.lookup "description" =
        some (match sample1.description with | some t => .str t | none => .null) ∧
      d.lookup "price" = some (.num sample1.price) ∧
      d.lookup "city" = some (.str sample1.city) ∧
      d.lookup "address" = some (.str sample1.address) ∧
      d.lookup "bedrooms" = some (.num sample1.bedrooms) ∧
      d.lookup "bathrooms" = some (.num sample1.bathrooms) ∧
      d.lookup "area_sqft" = some (.num sample1.area_sqft) ∧
      d.lookup "images" = some (.list (sample1.images.map .str)) ∧
      d.lookup "tags" = some (.list (sample1.tags.map .str)) ∧
      d.lookup "coords_lat" =
        some (match sample1.coords_lat with | some v => .num v | none => .null) ∧
      d.lookup "coords_lng" =
        some (match sample1.coords_lng with | some v => .num v | none => .null) ∧
      d.lookup "tour_3d_url" =
        some (match sample1.tour_3d_url with | some v => .str v | none => .null) ∧
      d.lookup "broker_id" =
        some (match sample1.broker_id with | some v => .str v | none => .null) :=
  create_then_search_contains_new_property Store.empty sample1 (by decide)
    (by decide)

/-- C6: seeding inserts exactly the two predefined sample properties when
the property collection is empty and inserts nothing when it is
non-empty; two sequential calls from any starting state grow the
collection by at most two (the seeded samples). -/
theorem seed_inserts_two_iff_empty (s : Store) :
    (seed_sample_properties s).1.property =
      (if s.property.isEmpty
       then s.property ++ [(s.nextOid, sample1), (s.nextOid + 1, sample2)]
       else s.property) ∧
    (seed_sample_properties (seed_sample_properties s).1).1.property.length ≤
      s.property.length + 2 := by
  have h1 : ∀ t : Store, (seed_sample_properties t).1.property =
      (if t.property.isEmpty
       then t.property ++ [(t.nextOid, sample1), (t.nextOid + 1, sample2)]
       else t.property) := by
    intro t
    cases htp : t.property with
    | nil => simp [seed_sample_properties, getPropertyDocuments_empty, takeOpt, htp]
    | cons a l => simp [seed_sample_properties, getPropertyDocuments_empty, takeOpt, htp]
  refine ⟨h1 s, ?_⟩
  rw [h1 _, h1 s]
  cases htp : s.property with
  | nil => simp [htp]
  | cons a l => simp [htp]

/-- C7: property creation is rejected exactly when `price`, `bedrooms`,
`bathrooms` or `area_sqft` is negative, and a rejected creation leaves
the store unchanged. -/
theorem create_property_rejects_iff_negative_field (s : Store) (p : Property) :
    (create_property s p).2.ok? =
      !(decide (p.price < 0) || decide (p.bedrooms < 0) ||
        decide (p.bathrooms < 0) || decide (p.area_sqft < 0)) ∧
    (create_property s p).1 =
      (if (create_property s p).2.ok? then (create_property s p).1 else s) := by
  have hval : p.valid =
      !(decide (p.price < 0) || decide (p.bedrooms < 0) ||
        decide (p.bathrooms < 0) || decide (p.area_sqft < 0)) := by
    simp [Property.valid, Bool.not_or, ← decide_not, not_lt, Bool.and_assoc]
  have hok : (create_property s p).2.ok? = p.valid := by
    by_cases h : p.valid = true <;> simp [create_property, h, Response.ok?]
  refine ⟨by rw [hok, hval], ?_⟩
  by_cases h : p.valid = true <;> simp [create_property, h, Response.ok?]

/-- C8: broker creation is rejected, with nothing stored, whenever the
supplied rating is below 0 or above 5; when no rating is supplied the
parsed record's rating is the default 4.8, and every successful creation
stores exactly the parsed record. -/
theorem create_broker_rating_rules (s : Store) (b : BrokerIn) (r : ℚ) :
    (b.rating = some r → r < 0 ∨ 5 < r →
      (create_broker s b).2 = .validationError ∧ (create_broker s b).1 = s) ∧
    (b.rating = none → (BrokerIn.parse b).rating = defaultRating) ∧
    ((create_broker s b).2.ok? = true →
      (create_broker s b).1.broker = s.broker ++ [(s.nextOid, b.parse)]) := by
  refine ⟨?_, ?_, ?_⟩
  · intro hr hout
    have hval : b.valid = false := by
      cases hout with
      | inl hlt => simp [BrokerIn.valid, hr, not_le.mpr hlt]
      | inr hgt => simp [BrokerIn.valid, hr, not_le.mpr hgt]
    simp [create_broker, hval]
  · intro hn
    simp [BrokerIn.parse, hn]
  · intro hok
    by_cases hv : b.valid = true
    · simp [create_broker, hv]
    · simp [create_broker, hv, Response.ok?] at hok

/-- C8 (witness): a rating of -1 is rejected with nothing stored; absent
rating parses to the default 4.8 and is stored as parsed. -/
theorem create_broker_rating_rules_witness :
    ((create_broker Store.empty brokerRatingLow).2 = .validationError ∧
     (create_broker Store.empty brokerRatingLow).1 = Store.empty) ∧
    (BrokerIn.parse brokerNoRating).rating = defaultRating ∧
    (create_broker Store.empty brokerNoRating).1.broker =
      Store.empty.broker ++ [(Store.empty.nextOid, brokerNoRating.parse)] :=
  ⟨(create_broker_rating_rules Store.empty brokerRatingLow (-1)).1 rfl
     (Or.inl (by norm_num)),
   (create_broker_rating_rules Store.empty brokerNoRating 0).2.1 rfl,
   (create_broker_rating_rules Store.empty brokerNoRating 0).2.2 (by
     have hv : brokerNoRating.valid = true := by
       simp [BrokerIn.valid, brokerNoRating, defaultRating]
       norm_num
     simp [create_broker, hv, Response.ok?])⟩

/-- C9: booking creation is rejected, with nothing stored, when the email
is syntactically malformed; every booking that passes validation gets
back the new identifier together with the literal status string
"confirmed", unconditionally. -/
theorem create_booking_rejects_bad_email_else_confirmed
    (s : Store) (b : Booking) :
    (emailValid b.email = false →
      (create_booking s b).2 = .validationError ∧ (create_booking s b).1 = s) ∧
    (emailValid b.email = true →
      (create_booking s b).2 = .ok (toString s.nextOid, "confirmed")) := by
  constructor
  · intro h
    simp [create_booking, Booking.valid, h]
  · intro h
    simp [create_booking, Booking.valid, h]

/-- C9 (witness): a malformed email is rejected with nothing stored; a
valid one gets the fresh id and the literal "confirmed". -/
theorem create_booking_confirmed_witness :
    ((create_booking Store.empty bookingBad).2 = .validationError ∧
     (create_booking Store.empty bookingBad).1 = Store.empty) ∧
    (create_booking Store.empty bookingGood).2 =
      .ok (toString Store.empty.nextOid, "confirmed") :=
  ⟨(create_booking_rejects_bad_email_else_confirmed Store.empty bookingBad).1
     (by decide),
   (create_booking_rejects_bad_email_else_confirmed Store.empty bookingGood).2
     (by decide)⟩

end RealEstate
